import Mathlib

/-!
# Verification of `scripts/analyze_stocks.py`

Shallow embedding of the stock-analysis pipeline. Numeric values are
modelled as rationals (`ℚ`); the places where Python/NumPy float
semantics produce non-finite values (division by zero giving `inf`/`nan`)
are modelled explicitly by the `PyFloat` type. Fallible computations
(Python exceptions) are modelled with `Except`/`Option`.

The external collaborators (the market-data provider `akshare`, the
generation service `dashscope`, the symbol-list file) are inputs to the
embedded functions: the raw historical record is passed as a
`List RawRow`, and the generation collaborator as a function from the
attempt index to the response it returns on that attempt.
-/

namespace AnalyzeStocks

/-- A Python float value as it flows through this script: a finite value
(modelled as a rational), a signed infinity, or NaN.  Only the operations
the script performs are modelled. -/
inductive PyFloat where
  | num (q : ℚ)
  | inf (pos : Bool)
  | nan
deriving DecidableEq, Repr

/-- `PyFloat.isFinite` — true exactly for ordinary finite values. -/
def PyFloat.isFinite : PyFloat → Bool
  | .num _ => true
  | _ => false

/-- One row of the raw provider record after the rename step:
`close` / `volume` as returned by `pd.to_numeric(·, errors="coerce")`,
where `none` stands for a value that failed numeric coercion (NaN). -/
structure RawRow where
  close : Option ℚ
  volume : Option ℚ
deriving DecidableEq, Repr

/-- One usable bar after `dropna(subset=["close", "volume"])`:
both fields coerced successfully. -/
structure Bar where
  close : ℚ
  volume : ℚ
deriving DecidableEq, Repr, Inhabited

/-- `df.dropna(subset=["close","volume"])` — keep exactly the rows whose
close and volume both coerced to numbers (source line 94). -/
def coerceRows (raw : List RawRow) : List Bar :=
  raw.filterMap fun r =>
    match r.close, r.volume with
    | some c, some v => some ⟨c, v⟩
    | _, _ => none

/-- `series.tail(5).tolist()` — the last `min 5 n` elements. -/
def tail5 (l : List ℚ) : List ℚ := l.drop (l.length - 5)

/-- Mean of the last `w` entries of a list, as computed by
`series.rolling(window=w).mean().iloc[-1]` / `series.tail(w).mean()`
when the list has at least `w` entries. -/
def avgOfLast (l : List ℚ) (w : ℕ) : ℚ := ((l.drop (l.length - w)).sum) / w

/-- `prices.diff()` restricted to the defined entries: `deltas prices` is
the list of consecutive differences `prices[i] - prices[i-1]` for `i ≥ 1`
(the entry at index 0 is NaN in pandas and is handled by the callers). -/
def deltas (prices : List ℚ) : List ℚ :=
  List.zipWith (fun a b => a - b) (prices.drop 1) prices

/-- `delta.where(delta > 0, 0)` (source line 66).  The index-0 entry of
`prices.diff()` is NaN; `NaN > 0` is False in pandas, so `where` replaces
it by `0` — hence the leading `0`. -/
def gainSeries (prices : List ℚ) : List ℚ :=
  0 :: (deltas prices).map fun d => if 0 < d then d else 0

/-- `(-delta.where(delta < 0, 0))` (source line 67); the index-0 NaN
becomes `0` for the same reason as in `gainSeries`. -/
def lossSeries (prices : List ℚ) : List ℚ :=
  0 :: (deltas prices).map fun d => if d < 0 then -d else 0

/-- The trailing rolling-mean of gains used by `calculate_rsi`. -/
def avgGain (prices : List ℚ) (window : ℕ) : ℚ := avgOfLast (gainSeries prices) window

/-- The trailing rolling-mean of losses used by `calculate_rsi`. -/
def avgLoss (prices : List ℚ) (window : ℕ) : ℚ := avgOfLast (lossSeries prices) window

/-- `calculate_rsi` (source lines 64–70): value of
`(100 - 100/(1 + gain/loss)).iloc[-1]`.
Float semantics made explicit (`gain`, `loss` are always ≥ 0):
* fewer than `window` prices — the rolling window is not filled, the
  rolling mean is NaN and so is the result;
* `loss > 0` — ordinary arithmetic, a finite value;
* `loss = 0 < gain` — `rs = gain/0 = +inf`, `100 - 100/(1+inf) = 100`;
* `loss = 0 = gain` — `rs = 0/0 = NaN`, which propagates to the result. -/
def calculate_rsi (prices : List ℚ) (window : ℕ := 14) : PyFloat :=
  if prices.length < window then PyFloat.nan
  else if avgLoss prices window ≠ 0 then
    PyFloat.num (100 - 100 / (1 + avgGain prices window / avgLoss prices window))
  else if avgGain prices window ≠ 0 then PyFloat.num 100
  else PyFloat.nan

/-- `rsi = calculate_rsi(close_prices) if len(close_prices) >= 14 else "N/A"`
(source line 106): `none` is the string sentinel `"N/A"`. -/
def rsi_field (closes : List ℚ) : Option PyFloat :=
  if 14 ≤ closes.length then some (calculate_rsi closes) else none

/-- `ma20 = close_prices.tail(20).mean() if len(close_prices) >= 20 else "N/A"`
(source line 107): `none` is the string sentinel `"N/A"`.  The mean of
finitely many finite values is finite, so the payload is a plain `ℚ`. -/
def ma20_field (closes : List ℚ) : Option ℚ :=
  if 20 ≤ closes.length then some (avgOfLast closes 20) else none

/-- `change_pct = ((latest.close - prev.close) / prev.close) * 100`
(source line 105).  No zero guard in the source: NumPy float division by
zero yields `+inf` / `-inf` / `NaN` (by the sign of the numerator) rather
than raising, which is what the non-`num` branches record. -/
def change_pct (latest prev : ℚ) : PyFloat :=
  if prev ≠ 0 then PyFloat.num ((latest - prev) / prev * 100)
  else if latest > 0 then PyFloat.inf true
  else if latest < 0 then PyFloat.inf false
  else PyFloat.nan

/-- The volume-price classification (source lines 109–121), with
`price_up = latest.close > prev.close` and
`vol_up = latest.volume > prev.volume` inlined.  Note the second branch
tests `latest.volume < prev.volume` (strict), not `¬ vol_up`, exactly as
the source does. -/
def volume_price_signal (prev latest : Bar) : String :=
  if latest.close > prev.close ∧ latest.volume > prev.volume then
    "价涨量增（趋势健康）"
  else if ¬(latest.close > prev.close) ∧ latest.volume < prev.volume then
    "价跌量缩（抛压减轻）"
  else if latest.close > prev.close ∧ ¬(latest.volume > prev.volume) then
    "缩量上涨（持续性存疑）"
  else if ¬(latest.close > prev.close) ∧ latest.volume > prev.volume then
    "放量下跌（主力出货或洗盘）"
  else
    "量价中性"

/-- `avg_vol_5d = sum(vols) / 5` (source line 131). -/
def avg_vol_5d (v0 v1 v2 v3 v4 : ℚ) : ℚ := (v0 + v1 + v2 + v3 + v4) / 5

/-- `pct_5d = (latest_close - closes[0]) / closes[0] if closes[0] != 0 else 0`
(source line 134). -/
def pct_5d (c0 c4 : ℚ) : ℚ := if c0 ≠ 0 then (c4 - c0) / c0 else 0

/-- `max(closes)` over the 5-bar window. -/
def max5 (a b c d e : ℚ) : ℚ := max a (max b (max c (max d e)))

/-- `min(vols)` over the 5-bar window. -/
def min5 (a b c d e : ℚ) : ℚ := min a (min b (min c (min d e)))

/-- Rules 5 and 6 of the main-force chain (source lines 147–152), reached
once the conditions of rules 1–4 have all come out false; `avg` is the
enclosing `avg_vol_5d`.  Rule 6 first evaluates `latest_close > ma20`:
with fewer than 20 bars `ma20` is the *string* `"N/A"`, and the
float-vs-str comparison raises `TypeError` (modelled as
`Except.error ()`); the exception escapes to `get_stock_data`'s
catch-all and the symbol is dropped. -/
def inferRulesTail (c3 c4 v4 avg : ℚ) (ma20 : Option ℚ)
    (price_up : Bool) : Except Unit String :=
  if c4 > c3 ∧ v4 > avg * 1.5 then
    Except.ok "放量上涨（主力积极介入）"
  else
    match ma20 with
    | none => Except.error ()
    | some m =>
      if c4 > m ∧ v4 < avg * 0.8 ∧ price_up = true then
        Except.ok "温和推升（惜售明显）"
      else
        Except.ok "震荡整理（方向待明）"

/-- The ordered rule chain of `infer_main_force_behavior` (source lines
129–152), the part after the `len(closes) < 5` guard, on the 5-bar
window's closes and volumes.  It is split off from
`infer_main_force_behavior` below only so that theorems about a
symbolic window reduce cleanly; together the two definitions are the
source function.  The closure variables `ma20` and `price_up` of the
enclosing `get_stock_data` are passed explicitly; `ma20 = none` stands
for the string sentinel `"N/A"`.

Window naming: `c4 = closes[-1]`, `c3 = closes[-2]`, `c2 = closes[-3]`,
`c0 = closes[0]`, and likewise for volumes.  The guards
`len(closes) >= 3` / `len(vols) >= 2` inside `recent_pullback` /
`pullback_low_vol` are trivially true in the 5-element branch and are
dropped.

Two branches of the source can raise, and both exceptions escape to the
catch-all `except Exception` of `get_stock_data` (the symbol is then
dropped); they are modelled as `Except.error ()`:
* rule 4 — Python's `and` short-circuits, so
  `(closes[-2] - latest_close) / closes[-2]` is evaluated only once
  `latest_close < closes[-2]` and `high_vol` hold.  The window values
  come from `Series.tolist()` (source lines 124–125) and are *native*
  Python floats, for which division by zero raises `ZeroDivisionError`
  — unlike the NumPy scalars that make `change_pct` yield `inf`.
  Hence the explicit `c3 = 0` error case under rule 4's first two
  conjuncts; when rule 4's condition comes out false instead, evaluation
  falls through to `inferRulesTail` (rules 5 and 6).
* rule 6 — the source evaluates `latest_close > ma20` first; when `ma20`
  is the string `"N/A"` this float-vs-str comparison raises
  `TypeError` (see `inferRulesTail`). -/
def inferRules (c0 c1 c2 c3 c4 v0 v1 v2 v3 v4 : ℚ) (ma20 : Option ℚ)
    (price_up : Bool) : Except Unit String :=
  if pct_5d c0 c4 > 0.05 ∧ v4 > avg_vol_5d v0 v1 v2 v3 v4 * 1.5 ∧
      c4 = max5 c0 c1 c2 c3 c4 then
    Except.ok "强势拉升（放量突破新高）"
  else if |pct_5d c0 c4| < 0.02 ∧ v4 = min5 v0 v1 v2 v3 v4 then
    Except.ok "低位吸筹（横盘缩量）"
  else if (c3 < c2 ∧ c4 > c3) ∧ v3 < avg_vol_5d v0 v1 v2 v3 v4 * 0.7 ∧
      c4 > c2 then
    Except.ok "健康洗盘（回调缩量后回升）"
  else if c4 < c3 ∧ v4 > avg_vol_5d v0 v1 v2 v3 v4 * 1.5 then
    if c3 = 0 then Except.error ()
    else if (c3 - c4) / c3 > 0.03 then
      Except.ok "放量下跌（警惕派发风险）"
    else inferRulesTail c3 c4 v4 (avg_vol_5d v0 v1 v2 v3 v4) ma20 price_up
  else inferRulesTail c3 c4 v4 (avg_vol_5d v0 v1 v2 v3 v4) ma20 price_up

/-- `infer_main_force_behavior` (source lines 123–152): extract the last-5
window (`tail(5).tolist()`, lines 124–125), return `"数据不足"` when it is
shorter than 5 (lines 126–127), and otherwise run the rule chain
`inferRules`. -/
def infer_main_force_behavior (bars : List Bar) (ma20 : Option ℚ)
    (price_up : Bool) : Except Unit String :=
  match tail5 (bars.map Bar.close), tail5 (bars.map Bar.volume) with
  | [c0, c1, c2, c3, c4], [v0, v1, v2, v3, v4] =>
    inferRules c0 c1 c2 c3 c4 v0 v1 v2 v3 v4 ma20 price_up
  | _, _ => Except.ok "数据不足"

/-- The metrics record returned by `get_stock_data` (source lines 156–166).
The display-level rounding of the source (`round(·, 2)` on price,
change_pct, rsi, ma20, the rounding of `last_5_days` and the `int(·)`
truncation of volume) is presentation-only and is omitted: the fields
carry the unrounded values.  `rsi = none` / `ma20 = none` stand for the
string sentinel `"N/A"`. -/
structure Metrics where
  symbol : String
  price : ℚ
  changePct : PyFloat
  volume : ℚ
  rsi : Option PyFloat
  ma20 : Option ℚ
  last_5_days : List ℚ
  volumePriceSignal : String
  mainForceSignal : String
deriving DecidableEq, Repr

/-- The call `infer_main_force_behavior(df)` exactly as `get_stock_data`
makes it (source line 154): on the coerced frame, with the enclosing
scope's `ma20` and `price_up`. -/
def main_force_of (raw : List RawRow) : Except Unit String :=
  let df := coerceRows raw
  let latest := df.getD (df.length - 1) default
  let prev := df.getD (df.length - 2) default
  infer_main_force_behavior df (ma20_field (df.map Bar.close))
    (decide (latest.close > prev.close))

/-- `get_stock_data` (source lines 72–169), with the raw provider record
(the result of the `ak.stock_zh_a_hist` collaborator call, after the
rename of line 83) supplied as input.  `none` models the `return None`
paths: the raw frame empty or shorter than 5 rows (line 80), fewer than
2 usable rows after coercion (line 97), and the catch-all
`except Exception: return None` (line 168) — which in this pipeline is
reached exactly when `infer_main_force_behavior` raises: either the
rule-6 float-vs-`"N/A"` `TypeError` or the rule-4 native-float
`ZeroDivisionError` (all other computations, including the unguarded
`change_pct` division on NumPy scalars, yield non-finite floats rather
than raising).  The source computes `change_pct`/`rsi`/`ma20` before the
classifier runs; those computations are total here, so evaluation order
does not matter. -/
def get_stock_data (symbol : String) (raw : List RawRow) : Option Metrics :=
  if raw = [] ∨ raw.length < 5 then none
  else if (coerceRows raw).length < 2 then none
  else
    match main_force_of raw with
    | Except.error _ => none
    | Except.ok sig =>
        let df := coerceRows raw
        let latest := df.getD (df.length - 1) default
        let prev := df.getD (df.length - 2) default
        let closes := df.map Bar.close
        some
          { symbol := symbol
            price := latest.close
            changePct := change_pct latest.close prev.close
            volume := latest.volume
            rsi := rsi_field closes
            ma20 := ma20_field closes
            last_5_days := tail5 closes
            volumePriceSignal := volume_price_signal prev latest
            mainForceSignal := sig }

/-- One response of the generation collaborator
(`Generation.call`, source line 192): a status code and the output text. -/
structure GenResponse where
  status : ℕ
  text : String
deriving DecidableEq, Repr

/-- Observable trace of one `generate_analysis` run: the returned string,
how many calls were made to the generation collaborator, and the sleep
durations (in the source's time units, seconds) in order. -/
structure GenTrace where
  result : String
  calls : ℕ
  sleeps : List ℕ
deriving DecidableEq, Repr

/-- Python's `str.strip()`: remove leading and trailing whitespace.
Modelled directly on the character list (Lean's `String.trim` computes
the same result but through `Substring` byte positions, which obscures
reasoning). -/
def pyStrip (s : String) : String :=
  ⟨((s.data.dropWhile Char.isWhitespace).reverse.dropWhile
      Char.isWhitespace).reverse⟩

/-- The retry loop of `generate_analysis` (source lines 190–203), over the
list of remaining attempt indices (`range(3)` gives `[0, 1, 2]`).  The
collaborator is modelled as a function from the attempt index to the
response it returns on that attempt; the transport-exception branch
(line 200) is not exercised since the modelled collaborator always
returns a response.  Status 200 returns `text.strip()`; status 429
sleeps `2 ** retry` and continues; any other status returns the
`"API错误(...)"` marker at once; an exhausted loop returns `"分析失败"`. -/
def genLoop (resp : ℕ → GenResponse) : List ℕ → GenTrace
  | [] => ⟨"分析失败", 0, []⟩
  | retry :: rest =>
    let r := resp retry
    if r.status = 200 then ⟨pyStrip r.text, 1, []⟩
    else if r.status = 429 then
      let t := genLoop resp rest
      ⟨t.result, t.calls + 1, 2 ^ retry :: t.sleeps⟩
    else ⟨"API错误(" ++ toString r.status ++ ")", 1, []⟩

/-- `generate_analysis` (source lines 171–203).  The prompt built from the
metrics (lines 172–189) only feeds the collaborator and does not affect
the control flow, so the model takes just the collaborator. -/
def generate_analysis (resp : ℕ → GenResponse) : GenTrace :=
  genLoop resp [0, 1, 2]

/-- The per-symbol environment of one iteration of `main`'s loop: the
symbol, the raw record its `ak.stock_zh_a_hist` call yields, the result
of `get_stock_name_safe`, and the generation collaborator's responses. -/
structure SymbolEnv where
  symbol : String
  raw : List RawRow
  name : Option String
  responses : ℕ → GenResponse

/-- One element of the `results` list of `main`: the metrics dict with the
`name` and `analysis` keys added (source lines 221, 227). -/
structure StockEntry where
  data : Metrics
  name : String
  analysis : String
deriving DecidableEq, Repr

/-- The output document (source lines 236–239). -/
structure RunReport where
  generated_at : String
  stocks : List StockEntry
deriving DecidableEq, Repr

/-- The body of one iteration of `main`'s loop (source lines 211–230):
fetch the data, skip the symbol when that fails, otherwise attach the
name (defaulting to `"未知名称"`) and the generated analysis. -/
def processSymbol (env : SymbolEnv) : Option StockEntry :=
  match get_stock_data env.symbol env.raw with
  | none => none
  | some m =>
    some ⟨m, (match env.name with | some n => n | none => "未知名称"),
      (generate_analysis env.responses).result⟩

/-- `main` (source lines 205–245): iterate the symbol list in order,
append each completed entry, and wrap the results with the
`generated_at` timestamp (an input here, `datetime.now()` in the
source). -/
def main (generated_at : String) (envs : List SymbolEnv) : RunReport :=
  ⟨generated_at, envs.filterMap processSymbol⟩

/-! ## Concrete inputs used by the theorems below -/

/-- A 5-row raw record all of whose rows coerce; on its last-5 window
rules 1–5 of the classifier are all unsatisfied, and with only 5 bars
`ma20` is the `"N/A"` sentinel, so rule 6's comparison is reached. -/
def c1raw : List RawRow :=
  [⟨some 10, some 100⟩, ⟨some 10, some 100⟩, ⟨some 10, some 100⟩,
   ⟨some 10, some 100⟩, ⟨some 10.05, some 101⟩]

/-- A 2-row raw record whose rows both coerce to numbers. -/
def craw2 : List RawRow := [⟨some 10, some 100⟩, ⟨some 11, some 100⟩]

/-- 15 identical raw rows: closes are (weakly) non-decreasing, and over
the trailing 14-bar window both the average gain and the average loss
are zero. -/
def craw15 : List RawRow := List.replicate 15 ⟨some 10, some 100⟩

/-- A 5-row raw record whose previous (second-to-last) close is `0` while
every close and volume is non-negative; its last-5 window satisfies
rule 1, so the classifier succeeds and the metrics record is produced. -/
def c10raw : List RawRow :=
  [⟨some 1, some 10⟩, ⟨some 1, some 10⟩, ⟨some 1, some 10⟩,
   ⟨some 0, some 10⟩, ⟨some 2, some 100⟩]

/-- 20 identical raw rows — enough bars for both RSI and MA20. -/
def craw20 : List RawRow := List.replicate 20 ⟨some 10, some 100⟩

/-- A generation collaborator that always answers 429 (rate-limited). -/
def respAll429 : ℕ → GenResponse := fun _ => ⟨429, ""⟩

/-- A generation collaborator that succeeds at once with padded text. -/
def respOk : ℕ → GenResponse := fun _ => ⟨200, "  ok "⟩

/-- A generation collaborator that answers 200 with whitespace-only text. -/
def respWhitespace : ℕ → GenResponse := fun _ => ⟨200, " "⟩

/-- A symbol environment whose data fetch succeeds (20 usable bars) and
whose generation collaborator returns 200 with whitespace-only text. -/
def cEnv : SymbolEnv := ⟨"600000", craw20, none, respWhitespace⟩

/-! ## C1 -/

/-- C1: the claim says the main-force classifier never fails and returns a
label even when `ma20` is the `"N/A"` sentinel and rules 1–5 are all
unsatisfied.  On `c1raw` (5 usable bars, rules 1–5 unsatisfied) the code
instead evaluates `latest_close > ma20` with `ma20 = "N/A"`, a
float-vs-str comparison that raises `TypeError`; the surrounding
`except Exception` then silently drops the whole symbol
(`get_stock_data` returns `None`). -/
theorem c1_rule6_sentinel_comparison_raises :
    infer_main_force_behavior (coerceRows c1raw)
        (ma20_field ((coerceRows c1raw).map Bar.close)) true = Except.error () ∧
    get_stock_data "600000" c1raw = none := by
  constructor
  · norm_num [infer_main_force_behavior, inferRules, inferRulesTail, coerceRows, c1raw, tail5,
      ma20_field, pct_5d, avg_vol_5d, max5, max_def, min5, min_def, abs_lt,
      List.filterMap]
  · norm_num [get_stock_data, main_force_of, infer_main_force_behavior,
      inferRules, inferRulesTail, coerceRows, c1raw, tail5, ma20_field, pct_5d, avg_vol_5d,
      max5, max_def, min5, min_def, abs_lt, List.filterMap]

/-! ## C2 -/

/-- C2: `generate_analysis` makes at most 3 calls; if every attempt
returns 429 it sleeps `2^attempt` time units (1, 2, 4) after each of the
three attempts and then returns `"分析失败"`; if the first attempt returns
200 it makes exactly one call and returns the text stripped of
surrounding whitespace. -/
theorem c2_retry_policy (resp : ℕ → GenResponse) :
    (generate_analysis resp).calls ≤ 3 ∧
    ((resp 0).status = 429 → (resp 1).status = 429 → (resp 2).status = 429 →
      generate_analysis resp = ⟨"分析失败", 3, [1, 2, 4]⟩) ∧
    ((resp 0).status = 200 →
      generate_analysis resp = ⟨pyStrip (resp 0).text, 1, []⟩) := by
  refine ⟨?_, ?_, ?_⟩
  · simp only [generate_analysis, genLoop]
    split_ifs <;> simp
  · intro h0 h1 h2
    simp [generate_analysis, genLoop, h0, h1, h2]
  · intro h0
    simp [generate_analysis, genLoop, h0]

/-- Witness for C2 at concrete collaborators. -/
theorem c2_retry_policy_witness :
    generate_analysis respAll429 = ⟨"分析失败", 3, [1, 2, 4]⟩ ∧
    generate_analysis respOk = ⟨"ok", 1, []⟩ := by
  constructor
  · exact (c2_retry_policy respAll429).2.1 rfl rfl rfl
  · exact ((c2_retry_policy respOk).2.2 rfl).trans (by decide)

/-! ## C3 -/

/-- C3 counterexample: a raw record with 2 rows, both of which coerce to
numbers, for which the claim promises a metrics record — but the source
checks `len(df) < 5` on the raw frame before coercion and returns
`None`. -/
theorem c3_counterexample :
    (coerceRows craw2).length = 2 ∧ get_stock_data "600000" craw2 = none := by
  constructor
  · norm_num [coerceRows, craw2, List.filterMap]
  · norm_num [get_stock_data, craw2]

/-- C3 amended: normalization fails exactly when the raw record has fewer
than 5 rows (checked before coercion), or fewer than 2 usable rows after
numeric coercion, or the main-force classifier raises — the rule-6
float-vs-`"N/A"` `TypeError`, or the rule-4 `ZeroDivisionError` when the
two-bar-back close is zero and rule 4's first two conjuncts hold (both
swallowed by the catch-all `except`); in every other case a metrics
record is produced. -/
theorem c3_normalization_failure_iff (symbol : String) (raw : List RawRow) :
    get_stock_data symbol raw = none ↔
      raw.length < 5 ∨ (coerceRows raw).length < 2 ∨
        main_force_of raw = Except.error () := by
  unfold get_stock_data
  split_ifs with h1 h2
  · constructor
    · intro _
      rcases h1 with h | h
      · exact Or.inl (by simp [h])
      · exact Or.inl h
    · intro _; rfl
  · constructor
    · intro _; exact Or.inr (Or.inl h2)
    · intro _; rfl
  · push_neg at h1
    cases hm : main_force_of raw with
    | error e =>
      cases e
      constructor
      · intro _; exact Or.inr (Or.inr rfl)
      · intro _; rfl
    | ok sig =>
      constructor
      · intro hsome; exact absurd hsome (by simp)
      · rintro (h | h | h)
        · exact absurd h (by omega)
        · exact absurd h h2
        · exact Except.noConfusion h

/-- A 5-row fully numeric raw record whose last-5 window fails rules 1–3,
satisfies rule 4's first two conjuncts, and has a zero two-bar-back
close — the rule-4 `ZeroDivisionError` path. -/
def zdraw : List RawRow :=
  [⟨some 1, some 10⟩, ⟨some 1, some 10⟩, ⟨some 1, some 10⟩,
   ⟨some 0, some 10⟩, ⟨some (-1), some 100⟩]

/-- The rule-4 division path of the C3 characterization exercised
concretely: on `zdraw` the source evaluates
`(closes[-2] - latest_close) / closes[-2]` with native floats and a zero
denominator, raises `ZeroDivisionError`, and the symbol is dropped
(`get_stock_data` returns `None`) despite the record having 5 fully
numeric rows. -/
theorem rule4_zero_division_drops_symbol :
    main_force_of zdraw = Except.error () ∧
    get_stock_data "600000" zdraw = none := by
  constructor
  · norm_num [main_force_of, infer_main_force_behavior, inferRules, inferRulesTail,
      inferRulesTail, coerceRows, zdraw, tail5, ma20_field, pct_5d,
      avg_vol_5d, max5, max_def, min5, min_def, abs_lt, List.filterMap]
  · norm_num [get_stock_data, main_force_of, infer_main_force_behavior,
      inferRules, inferRulesTail, coerceRows, zdraw, tail5, ma20_field,
      pct_5d, avg_vol_5d, max5, max_def, min5, min_def, abs_lt,
      List.filterMap]

/-! ## C4 -/

lemma vps_up_up (prev latest : Bar) (h1 : prev.close < latest.close)
    (h2 : prev.volume < latest.volume) :
    volume_price_signal prev latest = "价涨量增（趋势健康）" := by
  unfold volume_price_signal
  rw [if_pos ⟨h1, h2⟩]

lemma vps_up_notup (prev latest : Bar) (h1 : prev.close < latest.close)
    (h2 : ¬ prev.volume < latest.volume) :
    volume_price_signal prev latest = "缩量上涨（持续性存疑）" := by
  unfold volume_price_signal
  rw [if_neg (fun hc => h2 hc.2), if_neg (fun hc => hc.1 h1), if_pos ⟨h1, h2⟩]

lemma vps_notup_voldown (prev latest : Bar) (h1 : ¬ prev.close < latest.close)
    (h2 : latest.volume < prev.volume) :
    volume_price_signal prev latest = "价跌量缩（抛压减轻）" := by
  unfold volume_price_signal
  rw [if_neg (fun hc => h1 hc.1), if_pos ⟨h1, h2⟩]

lemma vps_notup_volup (prev latest : Bar) (h1 : ¬ prev.close < latest.close)
    (h2 : prev.volume < latest.volume) :
    volume_price_signal prev latest = "放量下跌（主力出货或洗盘）" := by
  unfold volume_price_signal
  rw [if_neg (fun hc => h1 hc.1), if_neg (fun hc => absurd hc.2 (asymm h2)),
    if_neg (fun hc => h1 hc.1), if_pos ⟨h1, h2⟩]

lemma vps_neutral (prev latest : Bar) (h1 : ¬ prev.close < latest.close)
    (h2 : latest.volume = prev.volume) :
    volume_price_signal prev latest = "量价中性" := by
  unfold volume_price_signal
  rw [if_neg (fun hc => h1 hc.1),
    if_neg (fun hc => absurd hc.2 (h2 ▸ lt_irrefl latest.volume)),
    if_neg (fun hc => h1 hc.1),
    if_neg (fun hc => absurd hc.2 (h2 ▸ lt_irrefl latest.volume))]

lemma vps_neutral_iff (prev latest : Bar) :
    volume_price_signal prev latest = "量价中性" ↔
      ¬ prev.close < latest.close ∧ latest.volume = prev.volume := by
  constructor
  · intro h
    by_cases hc : prev.close < latest.close
    · by_cases hv : prev.volume < latest.volume
      · rw [vps_up_up prev latest hc hv] at h; exact absurd h (by decide)
      · rw [vps_up_notup prev latest hc hv] at h; exact absurd h (by decide)
    · rcases lt_trichotomy latest.volume prev.volume with hv | hv | hv
      · rw [vps_notup_voldown prev latest hc hv] at h
        exact absurd h (by decide)
      · exact ⟨hc, hv⟩
      · rw [vps_notup_volup prev latest hc hv] at h
        exact absurd h (by decide)
  · rintro ⟨h1, h2⟩
    exact vps_neutral prev latest h1 h2

/-- C4 counterexample: a tie in close (latest close = previous close) with
the volume strictly up is classified as `"放量下跌（主力出货或洗盘）"`
(the price-down/volume-up label), not as the neutral label that the
claim promises for every tie. -/
theorem c4_counterexample :
    (⟨10, 200⟩ : Bar).close = (⟨10, 100⟩ : Bar).close ∧
    volume_price_signal ⟨10, 100⟩ ⟨10, 200⟩ = "放量下跌（主力出货或洗盘）" ∧
    "放量下跌（主力出货或洗盘）" ≠ "量价中性" := by
  refine ⟨rfl, ?_, by decide⟩
  norm_num [volume_price_signal]

/-- C4 amended: the four strict (priceUp, volumeUp) combinations yield
their respective labels, but ties do not all map to the neutral label:
the label is neutral exactly when the latest close does not exceed the
previous close and the latest volume equals the previous volume (a price
tie is treated as "not up", and feeds the price-down branches when the
volume moved strictly; a volume tie with the price up yields the
price-up/volume-down label). -/
theorem c4_volume_price_cases (prev latest : Bar) :
    (prev.close < latest.close → prev.volume < latest.volume →
      volume_price_signal prev latest = "价涨量增（趋势健康）") ∧
    (latest.close < prev.close → latest.volume < prev.volume →
      volume_price_signal prev latest = "价跌量缩（抛压减轻）") ∧
    (prev.close < latest.close → latest.volume < prev.volume →
      volume_price_signal prev latest = "缩量上涨（持续性存疑）") ∧
    (latest.close < prev.close → prev.volume < latest.volume →
      volume_price_signal prev latest = "放量下跌（主力出货或洗盘）") ∧
    (volume_price_signal prev latest = "量价中性" ↔
      ¬ prev.close < latest.close ∧ latest.volume = prev.volume) :=
  ⟨fun a b => vps_up_up prev latest a b,
    fun a b => vps_notup_voldown prev latest (asymm a) b,
    fun a b => vps_up_notup prev latest a (asymm b),
    fun a b => vps_notup_volup prev latest (asymm a) b,
    vps_neutral_iff prev latest⟩

/-- Witness for C4 at concrete bar pairs, one per case. -/
theorem c4_volume_price_cases_witness :
    volume_price_signal ⟨10, 100⟩ ⟨11, 200⟩ = "价涨量增（趋势健康）" ∧
    volume_price_signal ⟨10, 100⟩ ⟨9, 50⟩ = "价跌量缩（抛压减轻）" ∧
    volume_price_signal ⟨10, 100⟩ ⟨11, 50⟩ = "缩量上涨（持续性存疑）" ∧
    volume_price_signal ⟨10, 100⟩ ⟨9, 200⟩ = "放量下跌（主力出货或洗盘）" ∧
    volume_price_signal ⟨10, 100⟩ ⟨10, 100⟩ = "量价中性" := by
  refine ⟨(c4_volume_price_cases _ _).1 (by norm_num) (by norm_num),
    (c4_volume_price_cases _ _).2.1 (by norm_num) (by norm_num),
    (c4_volume_price_cases _ _).2.2.1 (by norm_num) (by norm_num),
    (c4_volume_price_cases _ _).2.2.2.1 (by norm_num) (by norm_num),
    ((c4_volume_price_cases _ _).2.2.2.2).mpr ⟨by norm_num, rfl⟩⟩

/-! ## C5, C8, C9 -/

/-- On a literal 5-bar list the classifier is exactly the rule chain on
the window values (the `tail(5)` extraction is the identity). -/
lemma infer_on_five (c0 c1 c2 c3 c4 v0 v1 v2 v3 v4 : ℚ) (ma20 : Option ℚ)
    (pu : Bool) :
    infer_main_force_behavior
        [⟨c0, v0⟩, ⟨c1, v1⟩, ⟨c2, v2⟩, ⟨c3, v3⟩, ⟨c4, v4⟩] ma20 pu =
      inferRules c0 c1 c2 c3 c4 v0 v1 v2 v3 v4 ma20 pu := rfl

/-- C5: rules are evaluated in order with first match winning — whenever
rule 1's conditions hold (5-day return above 5%, latest volume above
1.5× the 5-day average, latest close the window maximum), the label is
rule 1's, even if rule 5's conditions (latest close above previous
close, high volume) hold as well. -/
theorem c5_rule_order (c0 c1 c2 c3 c4 v0 v1 v2 v3 v4 : ℚ) (m : Option ℚ)
    (pu : Bool)
    (h1 : pct_5d c0 c4 > 0.05)
    (h2 : v4 > avg_vol_5d v0 v1 v2 v3 v4 * 1.5)
    (h3 : c4 = max5 c0 c1 c2 c3 c4)
    (h5 : c4 > c3) :
    infer_main_force_behavior
        [⟨c0, v0⟩, ⟨c1, v1⟩, ⟨c2, v2⟩, ⟨c3, v3⟩, ⟨c4, v4⟩] m pu
      = Except.ok "强势拉升（放量突破新高）" := by
  rw [infer_on_five]
  unfold inferRules
  rw [if_pos ⟨h1, h2, h3⟩]

/-- Witness for C5: a window satisfying both rule 1's and rule 5's
conditions is labelled by rule 1. -/
theorem c5_rule_order_witness :
    infer_main_force_behavior
        [⟨10, 10⟩, ⟨10, 10⟩, ⟨10, 10⟩, ⟨10, 10⟩, ⟨11, 100⟩] (some 5) true
      = Except.ok "强势拉升（放量突破新高）" :=
  c5_rule_order 10 10 10 10 11 10 10 10 10 100 (some 5) true
    (by norm_num [pct_5d]) (by norm_num [avg_vol_5d])
    (by norm_num [max5, max_def]) (by norm_num)

/-- C8 counterexample: on this window the spec's rule-3 conditions hold
(`c3 < c2`, `c4 > c3`, `v3 < 0.7×avg`), rules 1 and 2 are unsatisfied —
yet the code emits the default label, because it also requires
`latest_close > closes[-3]` (`c4 > c2`), a conjunct absent from the
claim, and here `c4 = 11 < 12 = c2`. -/
theorem c8_counterexample :
    ((10:ℚ) < 12 ∧ (11:ℚ) > 10 ∧
      (10:ℚ) < avg_vol_5d 100 100 100 10 100 * 0.7) ∧
    ¬(pct_5d 10 11 > 0.05 ∧ (100:ℚ) > avg_vol_5d 100 100 100 10 100 * 1.5 ∧
      (11:ℚ) = max5 10 13 12 10 11) ∧
    ¬(|pct_5d 10 11| < 0.02 ∧ (100:ℚ) = min5 100 100 100 10 100) ∧
    infer_main_force_behavior
        [⟨10, 100⟩, ⟨13, 100⟩, ⟨12, 100⟩, ⟨10, 10⟩, ⟨11, 100⟩]
        (some 100) false
      = Except.ok "震荡整理（方向待明）" ∧
    "震荡整理（方向待明）" ≠ "健康洗盘（回调缩量后回升）" := by
  refine ⟨⟨by norm_num, by norm_num, by norm_num [avg_vol_5d]⟩, ?_, ?_, ?_,
    by decide⟩
  · rintro ⟨-, hv, -⟩
    rw [avg_vol_5d] at hv
    norm_num at hv
  · rintro ⟨hp, -⟩
    rw [pct_5d] at hp
    norm_num [abs_lt] at hp
  · rw [infer_on_five]
    norm_num [inferRules, inferRulesTail, pct_5d, avg_vol_5d, max5, max_def, min5, min_def,
      abs_lt]

/-- C8 amended: when rules 1 and 2 are unsatisfied and the code's rule-3
conditions hold — which are the spec's three conditions *plus* the
latest close being above the three-bar-back close (`c4 > c2`) — the
classifier emits the healthy-shakeout label. -/
theorem c8_shakeout_rule (c0 c1 c2 c3 c4 v0 v1 v2 v3 v4 : ℚ) (m : Option ℚ)
    (pu : Bool)
    (hr1 : ¬(pct_5d c0 c4 > 0.05 ∧ v4 > avg_vol_5d v0 v1 v2 v3 v4 * 1.5 ∧
      c4 = max5 c0 c1 c2 c3 c4))
    (hr2 : ¬(|pct_5d c0 c4| < 0.02 ∧ v4 = min5 v0 v1 v2 v3 v4))
    (h3a : c3 < c2) (h3b : c4 > c3)
    (h3c : v3 < avg_vol_5d v0 v1 v2 v3 v4 * 0.7)
    (h3d : c4 > c2) :
    infer_main_force_behavior
        [⟨c0, v0⟩, ⟨c1, v1⟩, ⟨c2, v2⟩, ⟨c3, v3⟩, ⟨c4, v4⟩] m pu
      = Except.ok "健康洗盘（回调缩量后回升）" := by
  rw [infer_on_five]
  unfold inferRules
  rw [if_neg hr1, if_neg hr2, if_pos ⟨⟨h3a, h3b⟩, h3c, h3d⟩]

/-- Witness for C8 on a concrete dip-then-recovery window. -/
theorem c8_shakeout_rule_witness :
    infer_main_force_behavior
        [⟨10, 100⟩, ⟨14, 100⟩, ⟨12, 100⟩, ⟨10, 10⟩, ⟨13, 100⟩]
        (some 0) true
      = Except.ok "健康洗盘（回调缩量后回升）" := by
  refine c8_shakeout_rule 10 14 12 10 13 100 100 100 10 100 (some 0) true
    ?_ ?_ (by norm_num) (by norm_num) (by norm_num [avg_vol_5d]) (by norm_num)
  · rintro ⟨-, -, hm⟩
    rw [max5] at hm
    norm_num [max_def] at hm
  · rintro ⟨hp, -⟩
    rw [pct_5d] at hp
    norm_num [abs_lt] at hp

/-- Whenever `ma20` is available, rules 5–6 always produce a label. -/
lemma inferRulesTail_some_ok (c3 c4 v4 avg m : ℚ) (pu : Bool) :
    ∃ s, inferRulesTail c3 c4 v4 avg (some m) pu = Except.ok s := by
  unfold inferRulesTail
  split_ifs <;> try exact ⟨_, rfl⟩
  all_goals
    show ∃ s, (if _ ∧ _ ∧ _ then Except.ok "温和推升（惜售明显）"
      else Except.ok "震荡整理（方向待明）") = Except.ok s
  all_goals split_ifs <;> exact ⟨_, rfl⟩

/-- C9: on a 5-bar window whose volumes are all zero the 5-day average
volume is zero, every ratio comparison of the classifier is false (they
are multiplications `avg * k`, never divisions by `avg`), classification
reaches a label whenever `ma20` is available, and with the window's
first close zero the 5-day return is defined as `0`. -/
theorem c9_zero_volume_window (c0 c1 c2 c3 c4 m : ℚ) (pu : Bool) :
    ¬((0:ℚ) > avg_vol_5d 0 0 0 0 0 * 1.5) ∧
    ¬((0:ℚ) < avg_vol_5d 0 0 0 0 0 * 0.7) ∧
    ¬((0:ℚ) < avg_vol_5d 0 0 0 0 0 * 0.8) ∧
    (∃ s, infer_main_force_behavior
        [⟨c0, 0⟩, ⟨c1, 0⟩, ⟨c2, 0⟩, ⟨c3, 0⟩, ⟨c4, 0⟩] (some m) pu
      = Except.ok s) ∧
    pct_5d 0 c4 = 0 := by
  refine ⟨by norm_num [avg_vol_5d], by norm_num [avg_vol_5d],
    by norm_num [avg_vol_5d], ?_, by norm_num [pct_5d]⟩
  rw [infer_on_five]
  unfold inferRules
  split_ifs <;>
    first
      | exact ⟨_, rfl⟩
      | exact inferRulesTail_some_ok _ _ _ _ _ _
      | (exfalso; norm_num [avg_vol_5d] at *)

/-- Witness for C9 at a concrete window. -/
theorem c9_zero_volume_window_witness :
    ∃ s, infer_main_force_behavior
        [⟨1, 0⟩, ⟨2, 0⟩, ⟨3, 0⟩, ⟨4, 0⟩, ⟨5, 0⟩] (some 3) true
      = Except.ok s :=
  (c9_zero_volume_window 1 2 3 4 5 3 true).2.2.2.1

/-! ## C6 -/

/-- C6 counterexample: `craw15` is a normalized series of 15 bars with
non-decreasing (constant) closes, so the 14-bar average loss is 0 — the
case the claim says must still yield a defined numeric RSI.  The code
instead computes `rs = 0/0 = NaN` and the NaN propagates silently into
the produced metrics record: the RSI field is neither the `"N/A"`
sentinel nor a finite number. -/
theorem c6_counterexample :
    (coerceRows craw15).length = 15 ∧
    (get_stock_data "600000" craw15).map Metrics.rsi
      = some (some PyFloat.nan) ∧
    PyFloat.nan.isFinite = false := by
  refine ⟨by norm_num [coerceRows, craw15, List.filterMap, List.replicate],
    ?_, rfl⟩
  norm_num [get_stock_data, main_force_of, infer_main_force_behavior,
    inferRules, inferRulesTail, coerceRows, craw15, tail5, ma20_field, rsi_field,
    calculate_rsi, avgGain, avgLoss, avgOfLast, gainSeries, lossSeries,
    deltas, change_pct, pct_5d, avg_vol_5d, max5, max_def, min5, min_def,
    abs_lt, List.filterMap, List.replicate, volume_price_signal]
  exact ⟨_, ⟨by simp, rfl⟩, rfl⟩

/-- C6 amended: RSI is the `"N/A"` sentinel below 14 bars and MA20 below
20 bars; with enough bars MA20 is always a finite number, and RSI is a
finite number when the trailing 14-bar average loss is nonzero (and
equals 100 when the average loss is zero but the average gain positive,
via `rs = +inf`), but is NaN — a silently propagated non-numeric value —
when the average loss and average gain are both zero (closes constant
across the window). -/
theorem c6_indicator_availability (closes : List ℚ) :
    (closes.length < 14 → rsi_field closes = none) ∧
    (14 ≤ closes.length →
      (avgLoss closes 14 ≠ 0 →
        ∃ q, rsi_field closes = some (PyFloat.num q)) ∧
      (avgLoss closes 14 = 0 → avgGain closes 14 ≠ 0 →
        rsi_field closes = some (PyFloat.num 100)) ∧
      (avgLoss closes 14 = 0 → avgGain closes 14 = 0 →
        rsi_field closes = some PyFloat.nan)) ∧
    (closes.length < 20 → ma20_field closes = none) ∧
    (20 ≤ closes.length → ∃ q, ma20_field closes = some q) := by
  refine ⟨?_, ?_, ?_, ?_⟩
  · intro h; rw [rsi_field, if_neg (by omega)]
  · intro h
    have hnl : ¬ closes.length < 14 := by omega
    refine ⟨?_, ?_, ?_⟩
    · intro hL
      rw [rsi_field, if_pos h, calculate_rsi, if_neg hnl, if_pos hL]
      exact ⟨_, rfl⟩
    · intro hL hG
      rw [rsi_field, if_pos h, calculate_rsi, if_neg hnl,
        if_neg (fun hn => hn hL), if_pos hG]
    · intro hL hG
      rw [rsi_field, if_pos h, calculate_rsi, if_neg hnl,
        if_neg (fun hn => hn hL), if_neg (fun hn => hn hG)]
  · intro h; rw [ma20_field, if_neg (by omega)]
  · intro h; rw [ma20_field, if_pos h]; exact ⟨_, rfl⟩

/-- A 14-bar series with one down-move (nonzero average loss). -/
def closes14dn : List ℚ := [2, 1, 1, 1, 1, 1, 1, 1, 1, 1, 1, 1, 1, 1]

/-- A 14-bar non-decreasing series with one up-move (zero average loss,
positive average gain). -/
def closes14up : List ℚ := [1, 2, 2, 2, 2, 2, 2, 2, 2, 2, 2, 2, 2, 2]

/-- A constant 14-bar series (zero average loss and zero average gain). -/
def closes14fl : List ℚ := List.replicate 14 1

/-- Witness for C6 on concrete series of each kind. -/
theorem c6_indicator_availability_witness :
    rsi_field [1] = none ∧
    (∃ q, rsi_field closes14dn = some (PyFloat.num q)) ∧
    rsi_field closes14up = some (PyFloat.num 100) ∧
    rsi_field closes14fl = some PyFloat.nan ∧
    ma20_field [1] = none ∧
    (∃ q, ma20_field (List.replicate 20 (1:ℚ)) = some q) := by
  refine ⟨(c6_indicator_availability [1]).1 (by norm_num),
    ((c6_indicator_availability closes14dn).2.1 (by norm_num [closes14dn])).1
      ?_,
    (((c6_indicator_availability closes14up).2.1
      (by norm_num [closes14up])).2.1 ?_ ?_),
    (((c6_indicator_availability closes14fl).2.1
      (by norm_num [closes14fl, List.replicate])).2.2 ?_ ?_),
    (c6_indicator_availability [1]).2.2.1 (by norm_num),
    (c6_indicator_availability (List.replicate 20 1)).2.2.2
      (by norm_num [List.replicate])⟩
  · norm_num [avgLoss, avgOfLast, lossSeries, deltas, closes14dn]
  · norm_num [avgLoss, avgOfLast, lossSeries, deltas, closes14up]
  · norm_num [avgGain, avgOfLast, gainSeries, deltas, closes14up]
  · norm_num [avgLoss, avgOfLast, lossSeries, deltas, closes14fl,
      List.replicate]
  · norm_num [avgGain, avgOfLast, gainSeries, deltas, closes14fl,
      List.replicate]

/-! ## C7 -/

lemma api_error_ne_empty (n : ℕ) :
    ("API错误(" ++ toString n ++ ")" : String) ≠ "" := by
  intro h
  have hl := congrArg String.length h
  simp only [String.length_append] at hl
  have h1 : ("API错误(" : String).length = 6 := rfl
  have h2 : (")" : String).length = 1 := rfl
  have h3 : ("" : String).length = 0 := rfl
  omega

/-- The retry loop only ever returns the empty string when some attempted
response had status 200 with whitespace-only text: the failure marker
and the API-error markers are non-empty. -/
lemma genLoop_empty_result (resp : ℕ → GenResponse) (l : List ℕ)
    (h : (genLoop resp l).result = "") :
    ∃ i ∈ l, (resp i).status = 200 ∧ pyStrip (resp i).text = "" := by
  induction l with
  | nil =>
    rw [genLoop] at h
    exact absurd h (by decide)
  | cons a rest ih =>
    rw [genLoop] at h
    split_ifs at h with h200 h429
    · exact ⟨a, by simp, h200, h⟩
    · obtain ⟨i, hi, hs⟩ := ih h
      exact ⟨i, by simp [List.mem_cons, hi], hs⟩
    · exact absurd h (api_error_ne_empty (resp a).status)

/-- The analyses of the report entries are, in order, the generator
results of exactly those symbols whose data fetch succeeded. -/
lemma stocks_map_analysis (envs : List SymbolEnv) :
    (envs.filterMap processSymbol).map StockEntry.analysis =
      (envs.filter fun env => (get_stock_data env.symbol env.raw).isSome).map
        fun env => (generate_analysis env.responses).result := by
  induction envs with
  | nil => rfl
  | cons e rest ih =>
    cases h : get_stock_data e.symbol e.raw with
    | none =>
      simp [List.filterMap_cons, List.filter_cons, processSymbol, h, ih]
    | some m =>
      simp [List.filterMap_cons, List.filter_cons, processSymbol, h, ih]

/-- C7 counterexample: one symbol whose fetch succeeds (20 usable bars)
and whose generation collaborator returns status 200 with
whitespace-only text — the report's single entry has an *empty*
`analysis` string, where the claim promises a non-empty one. -/
theorem c7_counterexample :
    (main "2024-01-01" [cEnv]).stocks.map StockEntry.analysis = [""] := by
  norm_num [main, processSymbol, cEnv, respWhitespace, generate_analysis,
    genLoop, get_stock_data, main_force_of, infer_main_force_behavior,
    inferRules, inferRulesTail, coerceRows, craw20, tail5, ma20_field, rsi_field,
    calculate_rsi, avgGain, avgLoss, avgOfLast, gainSeries, lossSeries,
    deltas, change_pct, pct_5d, avg_vol_5d, max5, max_def, min5, min_def,
    abs_lt, List.filterMap, List.replicate, volume_price_signal]
  decide

/-- C7 amended: the output document carries the `generated_at` timestamp;
its `stocks` array contains, in input order, exactly the symbols whose
data fetch succeeded, each entry's `analysis` being the generator's
result string; that string is non-empty unless some attempt's response
had status 200 with empty-or-whitespace-only text (in which case the
stripped empty text is stored verbatim). -/
theorem c7_report_shape (ts : String) (envs : List SymbolEnv) :
    (main ts envs).generated_at = ts ∧
    (main ts envs).stocks.map StockEntry.analysis =
      (envs.filter fun env => (get_stock_data env.symbol env.raw).isSome).map
        (fun env => (generate_analysis env.responses).result) ∧
    (main ts envs).stocks.length =
      (envs.filter
        fun env => (get_stock_data env.symbol env.raw).isSome).length ∧
    (∀ resp : ℕ → GenResponse, (generate_analysis resp).result = "" →
      ∃ i, i < 3 ∧ (resp i).status = 200 ∧ pyStrip (resp i).text = "") := by
  refine ⟨rfl, stocks_map_analysis envs, ?_, ?_⟩
  · have hm := congrArg List.length (stocks_map_analysis envs)
    simpa using hm
  · intro resp h
    obtain ⟨i, hi, hs, ht⟩ := genLoop_empty_result resp [0, 1, 2] h
    refine ⟨i, ?_, hs, ht⟩
    simp only [List.mem_cons, List.not_mem_nil, or_false] at hi
    rcases hi with rfl | rfl | rfl <;> norm_num

/-- Witness for C7: the empty-analysis case comes from a 200 response with
whitespace-only text. -/
theorem c7_report_shape_witness :
    ∃ i, i < 3 ∧ (respWhitespace i).status = 200 ∧
      pyStrip (respWhitespace i).text = "" :=
  (c7_report_shape "2024-01-01" []).2.2.2 respWhitespace (by decide)

/-! ## C10 -/

/-- C10: the day-over-day `change_pct` divides by the previous close with
no zero guard, so on `c10raw` (5 usable non-negative bars, previous
close `0`) the division by zero is reached and the produced metrics
record carries the non-finite value `+inf` — whereas the classifier's
5-day return `pct_5d` is explicitly defined as `0` when the window's
first close is `0`. -/
theorem c10_change_pct_division_by_zero :
    (get_stock_data "600000" c10raw).map Metrics.changePct
        = some (PyFloat.inf true) ∧
    (PyFloat.inf true).isFinite = false ∧
    change_pct 2 0 = PyFloat.inf true ∧
    pct_5d 0 2 = 0 := by
  refine ⟨?_, rfl, by norm_num [change_pct], by norm_num [pct_5d]⟩
  norm_num [get_stock_data, main_force_of, infer_main_force_behavior,
    inferRules, inferRulesTail, coerceRows, c10raw, tail5, ma20_field, rsi_field, change_pct,
    pct_5d, avg_vol_5d, max5, max_def, min5, min_def, abs_lt, List.filterMap,
    volume_price_signal]
  exact ⟨_, ⟨by simp, rfl⟩, rfl⟩

end AnalyzeStocks
